import Mathlib

/-!
Verification of the wara9a multi-source documentation pipeline.

This file is a shallow embedding, in Lean, of the core of the
`wara9a` Python package: the data model (`wara9a/core/models.py`), the
configuration records (`wara9a/core/config.py`) and the orchestrator
(`wara9a/core/project.py`: `Project.collect_data`,
`Project._prepare_template_context`, `Project.generate_documents`),
together with the path logic of `wara9a/generators/base.py` and the
generator table of `Project.__init__`.

Modelling conventions.

* `datetime` values are modelled as `Nat` timestamps (the code only ever
  compares them and stores them); nullable datetimes are `Option Nat`.
* Python exceptions are modelled by the `Except PyError` result type.
  Three dynamic errors of the source are modelled faithfully because
  they are reachable on ordinary inputs:
  - `Wara9aConfig` is a pydantic `BaseModel` and defines no method
    `get`, so the handler line `self.config.get("continue_on_error",
    True)` in `Project.collect_data` / `Project.generate_documents`
    raises `AttributeError`;
  - the completion log of `Project.collect_data` (line 151) eagerly
    reads `source_data.commits`, `.issues` and `.pull_requests` —
    names `ProjectData` never declares, resolved only through its
    `extra="allow"` extras dict — so a successful collect whose data
    lacks those extras still raises `AttributeError` into the same
    handler;
  - `ProjectData` defines no method `get_open_issues`, so
    `Project._prepare_template_context` raises `AttributeError` on the
    helper-update step whenever project data is present.
* Connectors are external I/O; a run is parametrised by a `CollectEnv`
  giving the result of resolving and collecting each source
  (`self.connector_registry.get_connector(...)` followed by
  `connector.collect(...)`, both inside one `try`).
* File-system side effects (mkdir, writing the rendered content, the
  clean-before pass) are outside the model; only the produced paths are
  tracked.  Output filenames are modelled as a directory plus a stem and
  a suffix, with `Path.with_suffix` replacing the suffix, matching
  `pathlib` on the single-suffix names the code manipulates.
* Log output is modelled as a list of `LogEntry` values with abbreviated
  message texts taken from the source strings.
-/

/-! ## Enumerations (`wara9a/core/models.py`) -/

/-- `SourceType` enum of `models.py`. -/
inductive SourceType where
  | github
  | jira
  | azure_devops
  | local_files
  | custom
deriving Repr, DecidableEq

/-- `Priority` enum of `models.py`. -/
inductive Priority where
  | critical
  | high
  | medium
  | low
  | undefined
deriving Repr, DecidableEq

/-- `IssueStatus` enum of `models.py`. -/
inductive IssueStatus where
  | open
  | closed
  | in_progress
  | resolved
deriving Repr, DecidableEq

/-- `IssueType` enum of `models.py`. -/
inductive IssueType where
  | bug
  | feature
  | enhancement
  | task
  | epic
  | story
deriving Repr, DecidableEq

/-! ## Value objects -/

/-- `Author` model of `models.py`. -/
structure Author where
  name : String
  email : Option String := none
  username : Option String := none
  avatar_url : Option String := none
deriving Repr, DecidableEq

/-- `Label` model of `models.py`. -/
structure Label where
  name : String
  color : Option String := none
  description : Option String := none
deriving Repr, DecidableEq

/-- `Release` model of `models.py`. -/
structure Release where
  tag : String
  name : String
  description : Option String := none
  author : Author
  created_at : Nat
  published_at : Option Nat := none
  is_prerelease : Bool := false
  is_draft : Bool := false
  url : Option String := none
deriving Repr, DecidableEq

/-- `Repository` model of `models.py`. -/
structure Repository where
  name : String
  full_name : String
  description : Option String := none
  url : Option String := none
  default_branch : String := "main"
  languages : List String := []
  topics : List String := []
  created_at : Option Nat := none
  updated_at : Option Nat := none
  stars_count : Nat := 0
  forks_count : Nat := 0
deriving Repr, DecidableEq

/-! ## Functional documentation entities -/

/-- `Epic` model of `models.py`. -/
structure Epic where
  id : String
  key : String
  title : String
  description : Option String := none
  status : IssueStatus
  priority : Priority := .undefined
  author : Author
  assignee : Option Author := none
  labels : List Label := []
  created_at : Nat
  updated_at : Option Nat := none
  closed_at : Option Nat := none
  start_date : Option Nat := none
  due_date : Option Nat := none
  url : Option String := none
  business_value : Option String := none
  acceptance_criteria : List String := []
deriving Repr, DecidableEq

/-- `Feature` model of `models.py`. -/
structure Feature where
  id : String
  key : String
  title : String
  description : Option String := none
  status : IssueStatus
  priority : Priority := .undefined
  epic_id : Option String := none
  epic_key : Option String := none
  author : Author
  assignee : Option Author := none
  labels : List Label := []
  created_at : Nat
  updated_at : Option Nat := none
  closed_at : Option Nat := none
  url : Option String := none
  acceptance_criteria : List String := []
deriving Repr, DecidableEq

/-- `UserStory` model of `models.py`. -/
structure UserStory where
  id : String
  key : String
  title : String
  description : Option String := none
  user_persona : Option String := none
  user_goal : Option String := none
  user_benefit : Option String := none
  status : IssueStatus
  priority : Priority := .undefined
  story_points : Option Int := none
  epic_id : Option String := none
  feature_id : Option String := none
  author : Author
  assignee : Option Author := none
  labels : List Label := []
  created_at : Nat
  updated_at : Option Nat := none
  closed_at : Option Nat := none
  sprint : Option String := none
  url : Option String := none
  acceptance_criteria : List String := []
  test_scenarios : List String := []
deriving Repr, DecidableEq

/-- `Requirement` model of `models.py`. -/
structure Requirement where
  id : String
  key : String
  title : String
  description : String
  type : String
  status : IssueStatus
  priority : Priority := .undefined
  category : Option String := none
  author : Author
  created_at : Nat
  updated_at : Option Nat := none
  url : Option String := none
  verification_method : Option String := none
  linked_stories : List String := []
deriving Repr, DecidableEq

/-- `FunctionalData` aggregate of `models.py`. -/
structure FunctionalData where
  epics : List Epic := []
  features : List Feature := []
  user_stories : List UserStory := []
  requirements : List Requirement := []
  collected_at : Nat
  source_type : SourceType
  project_name : String
  project_key : Option String := none
deriving Repr, DecidableEq

/-! ## Technical documentation entities -/

/-- `CodeChange` model of `models.py`. -/
structure CodeChange where
  file_path : String
  change_type : String
  additions : Nat := 0
  deletions : Nat := 0
  changes : Nat := 0
  language : Option String := none
  diff : Option String := none
deriving Repr, DecidableEq

/-- `TechnicalCommit` model of `models.py`. -/
structure TechnicalCommit where
  sha : String
  short_sha : String
  message : String
  message_subject : String
  message_body : Option String := none
  author : Author
  committer : Option Author := none
  date : Nat
  url : Option String := none
  files_changed : List CodeChange := []
  total_additions : Nat := 0
  total_deletions : Nat := 0
  branch : Option String := none
  tags : List String := []
  is_merge : Bool := false
  parent_shas : List String := []
  linked_issues : List String := []
  linked_prs : List String := []
deriving Repr, DecidableEq

/-- `TechnicalPullRequest` model of `models.py`. -/
structure TechnicalPullRequest where
  id : String
  number : Nat
  title : String
  description : Option String := none
  author : Author
  status : String
  state : String
  source_branch : String
  target_branch : String
  created_at : Nat
  updated_at : Option Nat := none
  merged_at : Option Nat := none
  closed_at : Option Nat := none
  reviewers : List Author := []
  approved_by : List Author := []
  review_comments_count : Nat := 0
  commits : List TechnicalCommit := []
  files_changed : Nat := 0
  additions : Nat := 0
  deletions : Nat := 0
  url : Option String := none
  labels : List Label := []
  milestone : Option String := none
  linked_issues : List String := []
deriving Repr, DecidableEq

/-- `CodeMetrics` model of `models.py`. -/
structure CodeMetrics where
  language : String
  files_count : Nat := 0
  lines_of_code : Nat := 0
  lines_blank : Nat := 0
  lines_comment : Nat := 0
  complexity : Option Nat := none
deriving Repr, DecidableEq

/-- `TechnicalDebt` model of `models.py`. -/
structure TechnicalDebt where
  id : String
  title : String
  description : String
  severity : String
  type : String
  file_path : Option String := none
  line_number : Option Nat := none
  estimated_effort : Option String := none
  created_at : Nat
  url : Option String := none
deriving Repr, DecidableEq

/-- `TechnicalData` aggregate of `models.py`; `code_metrics` is a
`Dict[str, CodeMetrics]` modelled as an association list. -/
structure TechnicalData where
  commits : List TechnicalCommit := []
  pull_requests : List TechnicalPullRequest := []
  code_metrics : List (String × CodeMetrics) := []
  technical_debt : List TechnicalDebt := []
  repository_name : String
  repository_url : Option String := none
  default_branch : String := "main"
  collected_at : Nat
  source_type : SourceType
deriving Repr, DecidableEq

/-! ## Unified project data -/

/-- A Python value, as found in `Dict[str, Any]` data: the
`extra="allow"` extras of a pydantic model and YAML-sourced
`TemplateConfig.variables`. -/
inductive PyVal where
  | pynone
  | pybool (b : Bool)
  | pyint (n : Int)
  | pystr (s : String)
  | pylist (xs : List PyVal)
  | pydict (kvs : List (String × PyVal))
deriving Repr

/-- `ProjectData` model of `models.py`: the unit a connector returns.
`source_config` is a `Dict[str, Any]` the orchestrator never inspects;
it is modelled as an association list of strings.  `extra` is the
`__pydantic_extra__` dict admitted by `model_config =
ConfigDict(extra="allow")`: any keyword arguments beyond the declared
fields (the `local_files` and `jira` connectors pass `commits=`,
`issues=` and `pull_requests=` this way); attribute access falls back
to it and raises `AttributeError` on a missing name.  Constructing
`ProjectData` without extra keywords leaves it empty. -/
structure ProjectData where
  functional_data : Option FunctionalData := none
  technical_data : Option TechnicalData := none
  repository : Repository
  releases : List Release := []
  collected_at : Nat
  source_type : SourceType
  source_config : List (String × String) := []
  extra : List (String × PyVal) := []
deriving Repr

/-- Key used by `ProjectData.get_latest_release`: the lambda
`lambda r: r.published_at`; every release reaching it has
`published_at` set, so the default value is never observed. -/
def published_key (r : Release) : Nat := r.published_at.getD 0

/-- Python `max(iterable, key=...)` over a nonempty list: scan left to
right, replacing the running maximum only on a strictly greater key, so
the first of several maximal elements wins. -/
def pyMax (key : Release → Nat) : Release → List Release → Release
  | best, [] => best
  | best, r :: rest => pyMax key (if key r > key best then r else best) rest

/-- Filter of `ProjectData.get_latest_release`:
`[r for r in self.releases if r.published_at and not r.is_draft]`
(a `datetime` is always truthy, so the test is a null check). -/
def published_releases (d : ProjectData) : List Release :=
  d.releases.filter (fun r => r.published_at.isSome && !r.is_draft)

/-- `ProjectData.get_latest_release` of `models.py`. -/
def get_latest_release (d : ProjectData) : Option Release :=
  match published_releases d with
  | [] => none
  | h :: t => some (pyMax published_key h t)

/-! ### Lemmas about `pyMax` -/

theorem pyStep_cases (key : Release → Nat) (b r : Release) :
    (if key r > key b then r else b) = r ∨ (if key r > key b then r else b) = b := by
  split
  · exact Or.inl rfl
  · exact Or.inr rfl

theorem key_le_pyStep_left (key : Release → Nat) (b r : Release) :
    key b ≤ key (if key r > key b then r else b) := by
  split
  · omega
  · exact le_refl _

theorem key_le_pyStep_right (key : Release → Nat) (b r : Release) :
    key r ≤ key (if key r > key b then r else b) := by
  split
  · exact le_refl _
  · omega

theorem pyMax_mem (key : Release → Nat) :
    ∀ (l : List Release) (b : Release), pyMax key b l ∈ b :: l := by
  intro l
  induction l with
  | nil => intro b; simp [pyMax]
  | cons r rest ih =>
    intro b
    rw [pyMax]
    rcases List.mem_cons.mp (ih (if key r > key b then r else b)) with h | h
    · rw [h]
      rcases pyStep_cases key b r with h2 | h2 <;> rw [h2] <;> simp
    · simp [List.mem_cons, h]

theorem pyMax_ge (key : Release → Nat) :
    ∀ (l : List Release) (b x : Release),
      x ∈ b :: l → key x ≤ key (pyMax key b l) := by
  intro l
  induction l with
  | nil =>
    intro b x hx
    simp at hx
    simp [pyMax, hx]
  | cons r rest ih =>
    intro b x hx
    rw [pyMax]
    have hstep : key (if key r > key b then r else b)
        ≤ key (pyMax key (if key r > key b then r else b) rest) :=
      ih _ _ (by simp)
    rcases List.mem_cons.mp hx with h | h
    · subst h
      exact le_trans (key_le_pyStep_left key x r) hstep
    · rcases List.mem_cons.mp h with h2 | h2
      · subst h2
        exact le_trans (key_le_pyStep_right key b x) hstep
      · exact ih _ x (List.mem_cons.mpr (.inr h2))

theorem pyMax_eq_of_strict_max (key : Release → Nat) (m : Release) :
    ∀ (l : List Release) (b : Release),
      m ∈ b :: l → (∀ x ∈ b :: l, x ≠ m → key x < key m) →
      pyMax key b l = m := by
  intro l
  induction l with
  | nil =>
    intro b hm _
    simp at hm
    simp [pyMax, hm]
  | cons r rest ih =>
    intro b hm hstrict
    rw [pyMax]
    have hmem : m ∈ (if key r > key b then r else b) :: rest := by
      rcases List.mem_cons.mp hm with h | h
      · -- h : m = b
        have hr_le : key r ≤ key m := by
          by_cases hrm : r = m
          · simp [hrm]
          · exact le_of_lt (hstrict r (by simp) hrm)
        have hnot : ¬ key r > key b := by rw [← h]; omega
        rw [if_neg hnot, ← h]
        simp
      · rcases List.mem_cons.mp h with h2 | h2
        · -- h2 : m = r
          by_cases hk : key r > key b
          · rw [if_pos hk, ← h2]; simp
          · by_cases hbm : b = m
            · rw [if_neg hk, hbm]; simp
            · have hb_lt : key b < key m := hstrict b (by simp) hbm
              have hrm : key r = key m := by rw [← h2]
              omega
        · exact List.mem_cons.mpr (.inr h2)
    apply ih _ hmem
    intro x hx hxm
    apply hstrict x _ hxm
    rcases List.mem_cons.mp hx with h3 | h3
    · subst h3
      rcases pyStep_cases key b r with h4 | h4 <;> rw [h4] <;> simp
    · simp [List.mem_cons, h3]

theorem get_latest_release_none_iff (d : ProjectData) :
    get_latest_release d = none ↔ published_releases d = [] := by
  unfold get_latest_release
  cases h : published_releases d <;> simp

theorem get_latest_release_mem_max (d : ProjectData) (r : Release)
    (h : get_latest_release d = some r) :
    r ∈ published_releases d ∧
      ∀ r' ∈ published_releases d, published_key r' ≤ published_key r := by
  unfold get_latest_release at h
  cases hp : published_releases d with
  | nil => rw [hp] at h; simp at h
  | cons x t =>
    rw [hp] at h
    simp only [Option.some.injEq] at h
    subst h
    exact ⟨by simpa [hp] using pyMax_mem published_key t x,
           fun r' hr' => pyMax_ge published_key t x r' (by simpa [hp] using hr')⟩

/-! ## Configuration (`wara9a/core/config.py`) -/

/-- `OutputFormat` enum of `config.py`. -/
inductive OutputFormat where
  | markdown
  | html
  | pdf
deriving Repr, DecidableEq

/-- The string value of the `OutputFormat` str-enum. -/
def OutputFormat.value : OutputFormat → String
  | .markdown => "markdown"
  | .html => "html"
  | .pdf => "pdf"

/-- `ProjectConfig` model of `config.py`. -/
structure ProjectConfig where
  name : String
  version : Option String := some "1.0.0"
  description : Option String := none
  author : Option String := none
  license : Option String := none
  homepage : Option String := none
  repository : Option String := none
deriving Repr, DecidableEq

/-- `SourceConfig` model of `config.py`; the connector-specific extra
fields admitted by `extra="allow"` are an opaque association list the
orchestrator passes through unread. -/
structure SourceConfig where
  type : String
  name : Option String := none
  enabled : Bool := true
  extra : List (String × String) := []
deriving Repr, DecidableEq

/-- `TemplateConfig` model of `config.py`; `variables` is a
`Dict[str, Any]` modelled as an association list (a Python dict has
distinct keys). -/
structure TemplateConfig where
  name : String
  output : String × String
  template_file : Option String := none
  «variables» : List (String × PyVal) := []
  enabled : Bool := true

/-- `OutputConfig` model of `config.py`. -/
structure OutputConfig where
  directory : String := "output"
  formats : List OutputFormat := [.markdown]
  clean_before : Bool := false

/-- `Wara9aConfig` model of `config.py` (global flags that the
orchestrator reads; `log_level` and the cache/parallel flags are not
consulted by the collection or generation loops). -/
structure Wara9aConfig where
  project : ProjectConfig
  sources : List SourceConfig
  templates : List TemplateConfig
  output : OutputConfig := {}
  log_level : String := "INFO"
  parallel : Bool := true
  cache_enabled : Bool := true
  cache_ttl : Nat := 3600
  auto_install_deps : Bool := true

/-- `Wara9aConfig.get_enabled_sources` of `config.py`. -/
def get_enabled_sources (cfg : Wara9aConfig) : List SourceConfig :=
  cfg.sources.filter (fun s => s.enabled)

/-- `Wara9aConfig.get_enabled_templates` of `config.py`. -/
def get_enabled_templates (cfg : Wara9aConfig) : List TemplateConfig :=
  cfg.templates.filter (fun t => t.enabled)

/-! ## Python runtime errors and logging -/

/-- The exceptions the embedded orchestrator code can raise. -/
inductive PyError where
  | attributeError (msg : String)
  | typeError (msg : String)
deriving Repr, DecidableEq

/-- The text of an exception, as interpolated by the `{e}` of the
handlers' log lines. -/
def PyError.message : PyError → String
  | .attributeError m => m
  | .typeError m => m

/-- Message of the `AttributeError` raised by
`self.config.get("continue_on_error", True)`: a pydantic `BaseModel`
defines no method `get`. -/
def wara9aConfigNoGet : String := "Wara9aConfig object has no attribute get"

/-- Message of the `AttributeError` raised by
`self._project_data.get_open_issues()`: `ProjectData` in `models.py`
defines no method `get_open_issues`. -/
def projectDataNoGetOpenIssues : String :=
  "ProjectData object has no attribute get_open_issues"

/-- Log severities used by the orchestrator. -/
inductive LogLevel where
  | debug
  | info
  | warning
  | error
deriving Repr, DecidableEq

/-- One log line (messages abbreviated from the source strings). -/
structure LogEntry where
  level : LogLevel
  msg : String
deriving Repr, DecidableEq

/-! ## Template context (`Project._prepare_template_context`) -/

/-- One value of the heterogeneous context dict built by
`Project._prepare_template_context`.  The pydantic `model_dump()`
results are kept as tagged copies of the dumped object (the dump is an
injective field-by-field conversion performed by the pydantic library,
which is external to this repository). -/
inductive CtxVal where
  | py (v : PyVal)
  | projectDump (p : ProjectConfig)
  | dataDump (d : ProjectData)
  | configDump (sources : List SourceConfig) (outputDir : String)
  | templateDump (name : String) (output : String × String)
      («variables» : List (String × PyVal)) (enabled : Bool)

/-- The context dict: string keys, heterogeneous values, last write
wins. -/
def Ctx := List (String × CtxVal)

/-- Python dict write `d[k] = v`: replace the value of an existing key
in place, otherwise append the new key at the end. -/
def dset : List (String × CtxVal) → String → CtxVal → List (String × CtxVal)
  | [], k, v => [(k, v)]
  | (k0, v0) :: rest, k, v =>
    if k0 == k then (k0, v) :: rest else (k0, v0) :: dset rest k v

/-- The dict literal of `Project._prepare_template_context`
(lines 264-275 of `project.py`): `project`, `data`, `config` and
`template` entries followed by the unpacked `**template_config.variables`,
whose keys overwrite earlier same-named entries. -/
def prepare_context_literal (cfg : Wara9aConfig) (pd : Option ProjectData)
    (tc : TemplateConfig) : List (String × CtxVal) :=
  let base : List (String × CtxVal) :=
    [("project", .projectDump cfg.project),
     ("data", match pd with
              | some d => .dataDump d
              | none => .py (.pydict [])),
     ("config", .configDump cfg.sources cfg.output.directory),
     ("template", .templateDump tc.name tc.output tc.«variables» tc.enabled)]
  tc.«variables».foldl (fun d kv => dset d kv.1 (.py kv.2)) base

/-- `ProjectData.get_latest_release` evaluated for the helper update of
`_prepare_template_context`; the subsequent `get_open_issues` call hits
a method `ProjectData` does not define, so when project data is present
the helper-update dict literal raises `AttributeError` and no context is
returned. -/
def prepare_template_context (cfg : Wara9aConfig) (pd : Option ProjectData)
    (tc : TemplateConfig) : Except PyError (List (String × CtxVal)) :=
  let context := prepare_context_literal cfg pd tc
  match pd with
  | none => .ok context
  | some d =>
      let _ := get_latest_release d
      .error (.attributeError projectDataNoGetOpenIssues)

/-! ## Collection (`Project.collect_data`) -/

/-- External connector layer: the combined result of
`self.connector_registry.get_connector(source_config.type)` followed by
`connector.collect(source_config)`, both executed inside the same `try`
of `Project.collect_data`.  The `Nat` argument is the current wall-clock
time, which connectors use to stamp `collected_at`; an `.error` value is
any raised exception (connector missing, configuration invalid,
transport failure), carrying its message. -/
structure CollectEnv where
  collect : SourceConfig → Nat → Except String ProjectData

/-- The mutable state of a `Project` instance that `collect_data` reads
and writes: its configuration and the `_project_data` cache. -/
structure ProjectState where
  config : Wara9aConfig
  project_data : Option ProjectData := none

/-- Python attribute access on a `ProjectData` for a name that is not a
declared field or method: with `extra="allow"`, pydantic falls back to
the `__pydantic_extra__` dict and raises `AttributeError` when the name
is absent. -/
def pd_extra_attr (d : ProjectData) (attr : String) : Except PyError PyVal :=
  match d.extra.lookup attr with
  | some v => .ok v
  | none => .error (.attributeError ("ProjectData object has no attribute " ++ attr))

/-- Python `len(...)` on a value: defined for lists, strings and dicts,
a `TypeError` otherwise. -/
def pyLen : PyVal → Except PyError Nat
  | .pylist xs => .ok xs.length
  | .pystr s => .ok s.length
  | .pydict kvs => .ok kvs.length
  | _ => .error (.typeError "object has no len")

/-- Line 151-153 of `project.py`: the f-string
`"Collection complete: {len(source_data.commits)} commits,
{len(source_data.issues)} issues, {len(source_data.pull_requests)} PRs"`
eagerly reads `commits`, `issues` and `pull_requests` in that order —
attributes `ProjectData` never declares, so each resolves through the
pydantic extras and raises `AttributeError` when missing. -/
def collection_complete_log (d : ProjectData) : Except PyError LogEntry := do
  let nc ← pyLen (← pd_extra_attr d "commits")
  let ni ← pyLen (← pd_extra_attr d "issues")
  let np ← pyLen (← pd_extra_attr d "pull_requests")
  return ⟨.info, "Collection complete: " ++ toString nc ++ " commits, " ++
    toString ni ++ " issues, " ++ toString np ++ " PRs"⟩

/-- The per-source loop of `Project.collect_data` (lines 140-158 of
`project.py`), returning the log lines it emits and either the
accumulated `all_data` list or the raised exception.  On a successful
collect the data is appended to `all_data` (line 149) and the
completion message is then formatted (line 151); that f-string itself
raises `AttributeError` when the data lacks the `commits`, `issues` or
`pull_requests` extras.  On any exception — from the collect or from
the completion log — the error is logged and the handler then evaluates
`self.config.get("continue_on_error", True)`, which raises
`AttributeError` (pydantic models define no `get` method), so the
`AttributeError` propagates and the remaining sources are not
attempted. -/
def collect_sources (env : CollectEnv) (now : Nat) :
    List SourceConfig → List ProjectData →
    List LogEntry × Except PyError (List ProjectData)
  | [], acc => ([], .ok acc)
  | s :: rest, acc =>
    let entry : LogEntry :=
      ⟨.info, "Collecting from " ++ s.type ++ ": " ++ s.name.getD "Unnamed"⟩
    match env.collect s now with
    | .ok d =>
        match collection_complete_log d with
        | .ok entry2 =>
            let r := collect_sources env now rest (acc ++ [d])
            (entry :: entry2 :: r.1, r.2)
        | .error e2 =>
            ([entry,
              ⟨.error, "Erreur lors de la collecte depuis " ++ s.type ++ ": " ++
                e2.message⟩],
             .error (.attributeError wara9aConfigNoGet))
    | .error e =>
        ([entry, ⟨.error, "Erreur lors de la collecte depuis " ++ s.type ++ ": " ++ e⟩],
         .error (.attributeError wara9aConfigNoGet))

/-- The empty `ProjectData` synthesized by `Project.collect_data` when
`all_data` is empty (lines 166-177 of `project.py`): repository built
from the project name and description, no functional or technical data,
`source_type=SourceType.LOCAL_FILES`, everything else defaulted. -/
def synthesize_project_data (cfg : Wara9aConfig) (now : Nat) : ProjectData :=
  { repository :=
      { name := cfg.project.name,
        full_name := cfg.project.name,
        description := cfg.project.description },
    functional_data := none,
    technical_data := none,
    releases := [],
    collected_at := now,
    source_type := .local_files,
    source_config := [] }

/-- `Project.collect_data` of `project.py`.  When `force_refresh` is
false and `self._project_data` is set, the cached value is returned
without touching any source; otherwise every enabled source is visited
in declared order and the first element of `all_data` is kept.  Returns
the log, and either the raised exception or the collected `ProjectData`
together with the updated project state (the `self._project_data`
assignment). -/
def collect_data (env : CollectEnv) (st : ProjectState) (now : Nat)
    (force_refresh : Bool := false) :
    List LogEntry × Except PyError (ProjectData × ProjectState) :=
  match st.project_data, force_refresh with
  | some d, false =>
      ([⟨.info, "Début de la collecte de données"⟩,
        ⟨.info, "Utilisation des données en cache"⟩], .ok (d, st))
  | _, _ =>
    let r := collect_sources env now (get_enabled_sources st.config) []
    let logs := ⟨.info, "Début de la collecte de données"⟩ :: r.1
    match r.2 with
    | .error e => (logs, .error e)
    | .ok all_data =>
      match all_data with
      | d :: _ =>
          (logs ++ [⟨.info, "Data collection completed successfully"⟩],
           .ok (d, { st with project_data := some d }))
      | [] =>
          let d := synthesize_project_data st.config now
          (logs ++ [⟨.warning, "No data collected"⟩],
           .ok (d, { st with project_data := some d }))

/-! ### Lemmas about `collect_sources` -/

theorem collect_sources_snd_cons_ok (env : CollectEnv) (now : Nat)
    (s : SourceConfig) (rest : List SourceConfig) (d : ProjectData) (e2 : LogEntry)
    (h : env.collect s now = .ok d)
    (hlog : collection_complete_log d = .ok e2) (acc : List ProjectData) :
    (collect_sources env now (s :: rest) acc).2 =
      (collect_sources env now rest (acc ++ [d])).2 := by
  rw [collect_sources]
  simp only [h, hlog]

theorem collect_sources_all_ok (env : CollectEnv) (now : Nat) :
    ∀ (ss : List SourceConfig),
      (∀ s ∈ ss, ∃ d e2, env.collect s now = .ok d ∧
        collection_complete_log d = .ok e2) →
      ∀ (acc : List ProjectData),
        ∃ ds, (collect_sources env now ss acc).2 = .ok (acc ++ ds) := by
  intro ss
  induction ss with
  | nil =>
    intro _ acc
    exact ⟨[], by simp [collect_sources]⟩
  | cons s rest ih =>
    intro h acc
    obtain ⟨d, e2, hd, hlog⟩ := h s (by simp)
    obtain ⟨ds, hres⟩ := ih (fun s2 hs2 => h s2 (List.mem_cons.mpr (.inr hs2))) (acc ++ [d])
    refine ⟨d :: ds, ?_⟩
    rw [collect_sources_snd_cons_ok env now s rest d e2 hd hlog acc, hres]
    simp

theorem collect_sources_stamped (env : CollectEnv)
    (base : SourceConfig → ProjectData)
    (H : ∀ s n, env.collect s n = .ok { base s with collected_at := n })
    (Hlog : ∀ s, ∃ e2, collection_complete_log (base s) = .ok e2)
    (now : Nat) :
    ∀ (ss : List SourceConfig) (acc : List ProjectData),
      (collect_sources env now ss acc).2 =
        .ok (acc ++ ss.map (fun s => { base s with collected_at := now })) := by
  intro ss
  induction ss with
  | nil => intro acc; simp [collect_sources]
  | cons s rest ih =>
    intro acc
    obtain ⟨e2, he2⟩ := Hlog s
    have he2s : collection_complete_log { base s with collected_at := now } = .ok e2 := he2
    rw [collect_sources_snd_cons_ok env now s rest _ e2 (H s now) he2s acc, ih]
    simp


/-! ## Generation (`Project.generate_documents`) -/

/-- Modelled from the spec: the templating engine
(`wara9a/core/template_engine.py` is not part of the sources here; §6 of
the design gives its contract `render(templateName, context) -> string`,
failing with `TemplateNotFound` or `TemplateRenderError`).  The call
site `self.template_engine.render(template_name, context,
template_config)` also passes the template configuration. -/
structure TemplateEngine where
  render : String → List (String × CtxVal) → TemplateConfig → Except String String

/-- An output path: directory, base name and extension.
`Path.with_suffix` replaces the extension. -/
structure PPath where
  dir : String
  stem : String
  suffix : String
deriving Repr, DecidableEq

/-- `Path.with_suffix` on the single-suffix names the code builds. -/
def with_suffix (p : PPath) (s : String) : PPath := { p with suffix := s }

/-- The data of one registered output generator
(`wara9a/generators/markdown.py`, `wara9a/generators/html.py`). -/
structure GeneratorInfo where
  format_name : String
  file_extension : String
deriving Repr, DecidableEq

/-- `self.generators.get(format_name)` for the table built in
`Project.__init__`: `{"markdown": MarkdownGenerator(), "html":
HTMLGenerator()}`.  The `pdf` member of the `OutputFormat` enum has no
registered generator. -/
def generators_get : OutputFormat → Option GeneratorInfo
  | .markdown => some ⟨"markdown", ".md"⟩
  | .html => some ⟨"html", ".html"⟩
  | .pdf => none

/-- `GeneratorBase.prepare_output_path` of `generators/base.py`: force
the generator's own file extension (the `mkdir` of the parent directory
is a file-system side effect outside the model). -/
def prepare_output_path (g : GeneratorInfo) (p : PPath) : PPath :=
  if p.suffix != g.file_extension then with_suffix p g.file_extension else p

/-- `MarkdownGenerator.generate` / `HTMLGenerator.generate`: both first
normalise the path with `prepare_output_path`, then write the
(transformed) content there and return the final path; only the
returned path is modelled. -/
def generator_generate (g : GeneratorInfo) (content : String) (p : PPath) : PPath :=
  let _ := content
  prepare_output_path g p

/-- The per-format loop of `Project.generate_documents` (lines 238-252
of `project.py`): rebuild `output_dir / template_config.output`, swap in
`.{format_name}` for every non-markdown format, dispatch to the
registered generator if any, and otherwise log
`Générateur non trouvé pour le format` and move on.  Returns the
successfully generated paths and the log of the loop. -/
def generate_formats (out_dir : String) (tpl_output : String × String)
    (content : String) : List OutputFormat → List PPath × List LogEntry
  | [] => ([], [])
  | f :: rest =>
    let output_file : PPath := ⟨out_dir, tpl_output.1, tpl_output.2⟩
    let output_file :=
      if f.value != "markdown" then with_suffix output_file ("." ++ f.value)
      else output_file
    let step : List PPath × List LogEntry :=
      match generators_get f with
      | some g =>
          ([generator_generate g content output_file], [⟨.info, "Document généré"⟩])
      | none =>
          ([], [⟨.error, "Générateur non trouvé pour le format: " ++ f.value⟩])
    let restres := generate_formats out_dir tpl_output content rest
    (step.1 ++ restres.1, step.2 ++ restres.2)

/-- The per-template loop of `Project.generate_documents` (lines
214-257 of `project.py`).  For each requested template name: find its
configuration (first match, else warn and continue), skip disabled
templates, then inside `try`: build the context, render, and fan out to
the formats.  When context building or rendering raises, the `except`
handler logs the error and then evaluates
`self.config.get("continue_on_error", True)`, which raises
`AttributeError`, aborting the whole call; the accumulated
`generated_files` list is lost to the caller. -/
def generate_documents_go (engine : TemplateEngine) (cfg : Wara9aConfig)
    (pd : ProjectData) (out_dir : String) :
    List String → List PPath → List LogEntry →
    List LogEntry × Except PyError (List PPath)
  | [], files, logs =>
      (logs ++ [⟨.info, "Génération terminée"⟩], .ok files)
  | n :: rest, files, logs =>
    match cfg.templates.find? (fun t => t.name == n) with
    | none =>
        generate_documents_go engine cfg pd out_dir rest files
          (logs ++ [⟨.warning, "Template non trouvé dans la configuration: " ++ n⟩])
    | some tc =>
      if tc.enabled = false then
        generate_documents_go engine cfg pd out_dir rest files
          (logs ++ [⟨.info, "Template désactivé: " ++ n⟩])
      else
        match prepare_template_context cfg (some pd) tc with
        | .ok context =>
          match engine.render n context tc with
          | .ok content =>
            let fmt := generate_formats out_dir tc.output content cfg.output.formats
            generate_documents_go engine cfg pd out_dir rest (files ++ fmt.1)
              (logs ++ fmt.2)
          | .error _ =>
            (logs ++ [⟨.error, "Erreur lors de la génération du template " ++ n⟩],
             .error (.attributeError wara9aConfigNoGet))
        | .error _ =>
          (logs ++ [⟨.error, "Erreur lors de la génération du template " ++ n⟩],
           .error (.attributeError wara9aConfigNoGet))

/-- `Project.generate_documents` of `project.py`, for a project whose
data has already been collected (`self._project_data = pd`; when unset
the method first runs `collect_data`, which always leaves a value or
raises).  Directory creation and the optional `clean_before` pass are
file-system side effects outside the model. -/
def generate_documents (engine : TemplateEngine) (cfg : Wara9aConfig)
    (pd : ProjectData) (templates : Option (List String) := none)
    (output_dir : Option String := none) :
    List LogEntry × Except PyError (List PPath) :=
  let out_dir := output_dir.getD cfg.output.directory
  let templates_to_use :=
    templates.getD ((get_enabled_templates cfg).map (fun t => t.name))
  generate_documents_go engine cfg pd out_dir templates_to_use []
    [⟨.info, "Génération de documents"⟩]

/-! ### Lemmas about `dset` and the context dict -/

theorem lookup_dset_self (d : List (String × CtxVal)) (k : String) (v : CtxVal) :
    List.lookup k (dset d k v) = some v := by
  induction d with
  | nil => simp [dset, List.lookup]
  | cons kv rest ih =>
    obtain ⟨k0, v0⟩ := kv
    by_cases h : k0 = k
    · subst h
      simp [dset, List.lookup]
    · have hne : (k0 == k) = false := beq_eq_false_iff_ne.mpr h
      have hne2 : (k == k0) = false := beq_eq_false_iff_ne.mpr (Ne.symm h)
      simp [dset, hne, List.lookup, hne2, ih]

theorem lookup_dset_ne (d : List (String × CtxVal)) (k k2 : String) (v : CtxVal)
    (h : k2 ≠ k) : List.lookup k2 (dset d k v) = List.lookup k2 d := by
  induction d with
  | nil => simp [dset, List.lookup, beq_eq_false_iff_ne.mpr h]
  | cons kv rest ih =>
    obtain ⟨k0, v0⟩ := kv
    by_cases h0 : k0 = k
    · subst h0
      simp [dset, List.lookup, beq_eq_false_iff_ne.mpr h]
    · have hne : (k0 == k) = false := beq_eq_false_iff_ne.mpr h0
      by_cases h2 : k2 = k0
      · subst h2
        simp [dset, hne, List.lookup]
      · have hne2 : (k2 == k0) = false := beq_eq_false_iff_ne.mpr h2
        simp [dset, hne, List.lookup, hne2, ih]

theorem lookup_foldl_dset_not_mem (vars : List (String × PyVal)) (k : String)
    (h : ∀ kv ∈ vars, kv.1 ≠ k) (d : List (String × CtxVal)) :
    List.lookup k (vars.foldl (fun d kv => dset d kv.1 (.py kv.2)) d) =
      List.lookup k d := by
  induction vars generalizing d with
  | nil => simp
  | cons kv rest ih =>
    rw [List.foldl_cons]
    rw [ih (fun kv2 h2 => h kv2 (List.mem_cons.mpr (.inr h2)))]
    exact lookup_dset_ne d kv.1 k (.py kv.2) (Ne.symm (h kv (by simp)))

theorem lookup_foldl_dset (vars : List (String × PyVal)) (k : String) (v : PyVal)
    (hnodup : (vars.map Prod.fst).Nodup) (hmem : (k, v) ∈ vars)
    (d : List (String × CtxVal)) :
    List.lookup k (vars.foldl (fun d kv => dset d kv.1 (.py kv.2)) d) =
      some (.py v) := by
  induction vars generalizing d with
  | nil => simp at hmem
  | cons kv rest ih =>
    obtain ⟨k0, v0⟩ := kv
    rw [List.map_cons, List.nodup_cons] at hnodup
    rw [List.foldl_cons]
    rcases List.mem_cons.mp hmem with h | h
    · have hk : k = k0 := (Prod.ext_iff.mp h).1
      have hv : v = v0 := (Prod.ext_iff.mp h).2
      show List.lookup k
        (List.foldl (fun d kv => dset d kv.1 (CtxVal.py kv.2))
          (dset d k0 (CtxVal.py v0)) rest) = some (CtxVal.py v)
      rw [hk, hv]
      rw [lookup_foldl_dset_not_mem rest k0
        (fun kv2 h2 heq => hnodup.1 (List.mem_map.mpr ⟨kv2, h2, heq⟩))
        (dset d k0 (CtxVal.py v0))]
      exact lookup_dset_self d k0 (.py v0)
    · exact ih hnodup.2 h _

theorem prepare_output_path_eq (g : GeneratorInfo) (p : PPath) :
    prepare_output_path g p = { p with suffix := g.file_extension } := by
  unfold prepare_output_path with_suffix
  split
  · rfl
  · next h =>
    obtain ⟨pd, ps, suf⟩ := p
    simp only [bne_iff_ne, ne_eq, not_not] at h
    simp [h]

/-! ## Concrete fixtures used by the claim-level theorems -/

/-- A sample author. -/
def author0 : Author := { name := "Jane Doe" }

/-- A sample repository. -/
def repo0 : Repository := { name := "demo", full_name := "acme/demo" }

/-- Published, non-draft release with `published_at = 10` (the `T1`
release of the round-trip example). -/
def relA : Release :=
  { tag := "v1.0", name := "v1.0", author := author0,
    created_at := 1, published_at := some 10 }

/-- Draft release with the more recent `published_at = 20` (the `T2`
release of the round-trip example). -/
def relB : Release :=
  { tag := "v2.0", name := "v2.0", author := author0,
    created_at := 2, published_at := some 20, is_draft := true }

/-- Non-draft prerelease with the strictly greatest `published_at`. -/
def relC : Release :=
  { tag := "v3.0-rc1", name := "v3.0-rc1", author := author0,
    created_at := 3, published_at := some 30, is_prerelease := true }

/-- Project data whose releases are the round-trip pair. -/
def pdRel : ProjectData :=
  { repository := repo0, releases := [relA, relB],
    collected_at := 0, source_type := .github }

/-- Project data whose most recently published qualifying release is a
prerelease. -/
def pdPre : ProjectData :=
  { repository := repo0, releases := [relA, relC],
    collected_at := 0, source_type := .github }

/-! ## C3 -/

/-- C3 (confirmed): `get_latest_release` returns a release that has a
non-null `published_at`, is not a draft, belongs to the qualifying
subset of `releases`, and carries the maximum `published_at` among the
qualifying releases; it returns `none` exactly when no release
qualifies, and in particular on an empty `releases` list it returns
`none` rather than failing.  A draft is never returned, however recent,
because a returned release always satisfies `is_draft = false`. -/
theorem C3_latest_release_selection (d : ProjectData) :
    (get_latest_release d = none ↔ published_releases d = []) ∧
    (d.releases = [] → get_latest_release d = none) ∧
    (∀ r, get_latest_release d = some r →
      r ∈ published_releases d ∧ r.published_at.isSome = true ∧
        r.is_draft = false ∧
      ∀ r2 ∈ published_releases d, published_key r2 ≤ published_key r) := by
  refine ⟨get_latest_release_none_iff d, ?_, ?_⟩
  · intro h
    rw [get_latest_release_none_iff]
    simp [published_releases, h]
  · intro r hr
    obtain ⟨hmem, hmax⟩ := get_latest_release_mem_max d r hr
    have hprops := List.mem_filter.mp hmem
    have hp : (r.published_at.isSome && !r.is_draft) = true := hprops.2
    simp only [Bool.and_eq_true, Bool.not_eq_true'] at hp
    exact ⟨hmem, hp.1, hp.2, hmax⟩

/-- Witness for C3 on the round-trip fixture: the draft `relB` is
excluded even though its `published_at` is more recent, so `relA` is
selected and is maximal among qualifying releases. -/
theorem C3_witness :
    relA ∈ published_releases pdRel ∧ relA.published_at.isSome = true ∧
      relA.is_draft = false ∧
      ∀ r2 ∈ published_releases pdRel, published_key r2 ≤ published_key relA :=
  (C3_latest_release_selection pdRel).2.2 relA (by rfl)

/-! ## C10 -/

/-- C10 (confirmed): the qualifying filter of `get_latest_release`
tests only `published_at` and `is_draft`, never `is_prerelease`; when
the strictly most recent qualifying release is a prerelease it is
returned. -/
theorem C10_prerelease_eligible (d : ProjectData) (r : Release)
    (hmem : r ∈ published_releases d)
    (hmax : ∀ x ∈ published_releases d, x ≠ r → published_key x < published_key r)
    (hpre : r.is_prerelease = true) :
    get_latest_release d = some r := by
  unfold get_latest_release
  cases hp : published_releases d with
  | nil => rw [hp] at hmem; simp at hmem
  | cons x t =>
    rw [hp] at hmem hmax
    show some (pyMax published_key x t) = some r
    rw [pyMax_eq_of_strict_max published_key r t x hmem hmax]

/-- Witness for C10: on `pdPre` the prerelease `relC` has the strictly
greatest `published_at` among qualifying releases and is returned. -/
theorem C10_witness : get_latest_release pdPre = some relC :=
  C10_prerelease_eligible pdPre relC (by decide) (by decide) (by decide)

/-! ## C1 -/

/-- C1 (amended): when every enabled source collect succeeds AND each
collected `ProjectData` carries the `commits`, `issues` and
`pull_requests` extras that line 151's completion f-string reads (the
keyword pattern of the `local_files`/`jira` connectors), the merged
`ProjectData` returned by `collect_data` on a fresh project is exactly
the first enabled source's `ProjectData`, adopted as-is; the data of
every later source is discarded.  Without those extras even a
successful collect aborts the run through the broken handler. -/
theorem C1_first_wins_when_all_succeed (env : CollectEnv) (cfg : Wara9aConfig)
    (now : Nat) (s0 : SourceConfig) (rest : List SourceConfig)
    (henabled : get_enabled_sources cfg = s0 :: rest)
    (d0 : ProjectData) (e0 : LogEntry) (h0 : env.collect s0 now = .ok d0)
    (hlog0 : collection_complete_log d0 = .ok e0)
    (hrest : ∀ s ∈ rest, ∃ d e2, env.collect s now = .ok d ∧
      collection_complete_log d = .ok e2) :
    (collect_data env { config := cfg } now false).2 =
      .ok (d0, { config := cfg, project_data := some d0 }) := by
  obtain ⟨ds, hds⟩ := collect_sources_all_ok env now rest hrest [d0]
  have hsnd : (collect_sources env now (get_enabled_sources cfg) []).2 =
      .ok (d0 :: ds) := by
    rw [henabled, collect_sources_snd_cons_ok env now s0 rest d0 e0 h0 hlog0 []]
    simpa using hds
  simp only [collect_data]
  rw [hsnd]

/-- Witness for C1 on a one-source configuration whose collect
succeeds. -/
def srcW : SourceConfig := { type := "local_files", name := some "Docs" }

/-- `ProjectData` produced by the witness source, carrying the
`commits=`, `issues=` and `pull_requests=` keyword extras the way
`LocalFilesConnector.collect` constructs it. -/
def pdW : ProjectData :=
  { repository := repo0, collected_at := 9, source_type := .local_files,
    extra := [("commits", .pylist []), ("issues", .pylist []),
              ("pull_requests", .pylist [])] }

/-- Witness environment: every collect succeeds with `pdW`. -/
def envW : CollectEnv := ⟨fun _ _ => .ok pdW⟩

/-- Witness configuration with the single enabled source `srcW`. -/
def cfgW : Wara9aConfig :=
  { project := { name := "demo" }, sources := [srcW], templates := [] }

/-- Witness for C1: with one enabled source that succeeds with
extras-carrying data, the merged result is that source's data. -/
theorem C1_witness :
    (collect_data envW { config := cfgW } 9 false).2 =
      .ok (pdW, { config := cfgW, project_data := some pdW }) :=
  C1_first_wins_when_all_succeed envW cfgW 9 srcW [] (by rfl) pdW
    ⟨.info, "Collection complete: 0 commits, 0 issues, 0 PRs"⟩ (by rfl) (by rfl)
    (by intro s hs; simp at hs)

/-- First source of the C1 counterexample (its collect raises). -/
def srcA : SourceConfig := { type := "github", name := some "GH" }

/-- Second source of the C1 counterexample (its collect succeeds). -/
def srcB : SourceConfig := { type := "local_files", name := some "Docs" }

/-- The `ProjectData` the second source would deliver. -/
def pdB : ProjectData :=
  { repository := repo0, collected_at := 7, source_type := .local_files }

/-- Environment for the C1 counterexample: the github source raises,
the other source succeeds with `pdB`. -/
def envC1 : CollectEnv :=
  ⟨fun s _ => if s.type == "github" then .error "API rate limit" else .ok pdB⟩

/-- Configuration for the C1 counterexample: both sources enabled, the
failing one declared first. -/
def cfgC1 : Wara9aConfig :=
  { project := { name := "demo" }, sources := [srcA, srcB], templates := [] }

/-- Counterexample to C1 as stated: with sources `[srcA, srcB]` where
only `srcB` (in second position) succeeds, `collect_data` does not
return `srcB`'s `ProjectData` — the failure handler itself raises
`AttributeError` (`Wara9aConfig` has no `get` method) and no merged
result is produced. -/
theorem C1_counterexample :
    (collect_data envC1 { config := cfgC1 } 7 false).2 =
      .error (.attributeError wara9aConfigNoGet) ∧
    ∀ st2, (collect_data envC1 { config := cfgC1 } 7 false).2 ≠ .ok (pdB, st2) := by
  have h1 : (collect_data envC1 { config := cfgC1 } 7 false).2 =
      .error (.attributeError wara9aConfigNoGet) := by rfl
  refine ⟨h1, fun st2 hcontra => ?_⟩
  rw [h1] at hcontra
  exact Except.noConfusion hcontra

/-! ## C2 -/

/-- Failing source of the C2 run. -/
def srcJ : SourceConfig := { type := "jira", name := some "Tracker" }

/-- Succeeding source of the C2 run, declared after the failing one. -/
def srcL : SourceConfig := { type := "local_files", name := some "Docs" }

/-- The `ProjectData` the second C2 source would deliver. -/
def pdL : ProjectData :=
  { repository := repo0, collected_at := 3, source_type := .local_files }

/-- Environment for the C2 run: the jira source raises
`connection refused`, the local source succeeds. -/
def envC2 : CollectEnv :=
  ⟨fun s _ => if s.type == "jira" then .error "connection refused" else .ok pdL⟩

/-- Configuration for the C2 run. -/
def cfgC2 : Wara9aConfig :=
  { project := { name := "demo" }, sources := [srcJ, srcL], templates := [] }

/-- C2 (code bug, evaluated at the failing input): when the first
source raises, the failure is logged, but the handler then evaluates
`self.config.get("continue_on_error", True)` and raises
`AttributeError`, so collection halts — the log shows the second
enabled source is never visited, contradicting the claimed
continue-on-error default. -/
theorem C2_failure_halts_collection :
    collect_data envC2 { config := cfgC2 } 3 false =
      ([⟨.info, "Début de la collecte de données"⟩,
        ⟨.info, "Collecting from jira: Tracker"⟩,
        ⟨.error, "Erreur lors de la collecte depuis jira: connection refused"⟩],
       .error (.attributeError wara9aConfigNoGet)) := by rfl

/-! ## C5 -/

/-- C5 (amended): with zero enabled sources, `collect_data` on a fresh
project returns the synthesized `ProjectData`: no functional data, no
technical data, no releases, and a repository whose name, full name and
description come from the project metadata. -/
theorem C5_zero_sources_synthesized (env : CollectEnv) (cfg : Wara9aConfig)
    (now : Nat) (henabled : get_enabled_sources cfg = []) :
    (collect_data env { config := cfg } now false).2 =
      .ok (synthesize_project_data cfg now,
           { config := cfg, project_data := some (synthesize_project_data cfg now) }) ∧
    (synthesize_project_data cfg now).functional_data = none ∧
    (synthesize_project_data cfg now).technical_data = none ∧
    (synthesize_project_data cfg now).releases = [] ∧
    (synthesize_project_data cfg now).repository.name = cfg.project.name ∧
    (synthesize_project_data cfg now).repository.full_name = cfg.project.name ∧
    (synthesize_project_data cfg now).repository.description = cfg.project.description := by
  refine ⟨?_, rfl, rfl, rfl, rfl, rfl, rfl⟩
  simp only [collect_data]
  rw [henabled]
  simp [collect_sources]

/-- Configuration with zero sources for the C5 witness. -/
def cfgC5w : Wara9aConfig :=
  { project := { name := "empty", description := some "bare project" },
    sources := [], templates := [] }

/-- Witness for C5: a configuration with no sources at all yields the
synthesized data. -/
theorem C5_witness :
    (collect_data envW { config := cfgC5w } 4 false).2 =
      .ok (synthesize_project_data cfgC5w 4,
           { config := cfgC5w,
             project_data := some (synthesize_project_data cfgC5w 4) }) :=
  (C5_zero_sources_synthesized envW cfgC5w 4 (by rfl)).1

/-- Enabled source of the C5 counterexample; its collect raises. -/
def srcF : SourceConfig := { type := "azure_devops" }

/-- Environment for the C5 counterexample: every collect raises. -/
def envC5 : CollectEnv := ⟨fun _ _ => .error "not implemented"⟩

/-- Configuration for the C5 counterexample: one enabled source that
always fails. -/
def cfgC5 : Wara9aConfig :=
  { project := { name := "demo" }, sources := [srcF], templates := [] }

/-- Counterexample to C5 as stated: when sources exist but none
collects successfully, `collect_data` does not return a synthesized
`ProjectData` — the failure handler raises `AttributeError` first. -/
theorem C5_counterexample :
    (collect_data envC5 { config := cfgC5 } 4 false).2 =
      .error (.attributeError wara9aConfigNoGet) ∧
    ∀ st2, (collect_data envC5 { config := cfgC5 } 4 false).2 ≠
      .ok (synthesize_project_data cfgC5 4, st2) := by
  have h1 : (collect_data envC5 { config := cfgC5 } 4 false).2 =
      .error (.attributeError wara9aConfigNoGet) := by rfl
  refine ⟨h1, fun st2 hcontra => ?_⟩
  rw [h1] at hcontra
  exact Except.noConfusion hcontra

/-! ## C9 -/

/-- The data the first call of a stamped run keeps: the first enabled
source's data stamped with the run time, or the synthesized data when
no source is enabled.  (Specification-level helper for stating the C9
theorems.) -/
def first_collected (base : SourceConfig → ProjectData) (cfg : Wara9aConfig)
    (n : Nat) : ProjectData :=
  match get_enabled_sources cfg with
  | s :: _ => { base s with collected_at := n }
  | [] => synthesize_project_data cfg n

theorem collect_data_force_stamped (env : CollectEnv)
    (base : SourceConfig → ProjectData)
    (H : ∀ s n, env.collect s n = .ok { base s with collected_at := n })
    (Hlog : ∀ s, ∃ e2, collection_complete_log (base s) = .ok e2)
    (st : ProjectState) (n : Nat) :
    (collect_data env st n true).2 =
      .ok (first_collected base st.config n,
           { st with project_data := some (first_collected base st.config n) }) := by
  obtain ⟨cfg, pdata⟩ := st
  have hcs := collect_sources_stamped env base H Hlog n (get_enabled_sources cfg) []
  rw [List.nil_append] at hcs
  cases pdata <;>
  · simp only [collect_data]
    rw [hcs]
    cases henabled : get_enabled_sources cfg with
    | nil => simp [first_collected, henabled]
    | cons s ss => simp [first_collected, henabled]

/-- C9 (amended): with `force_refresh = True`, collection is performed
fresh on each invocation: for connectors that are deterministic up to
the `collected_at` stamp and whose data carries the `commits`, `issues`
and `pull_requests` extras the completion log of line 151 reads, two
runs at times `n1` and `n2` return data equal in every field except
`collected_at`, which carries each run's own time. -/
theorem C9_fresh_only_with_force_refresh (env : CollectEnv)
    (base : SourceConfig → ProjectData)
    (H : ∀ s n, env.collect s n = .ok { base s with collected_at := n })
    (Hlog : ∀ s, ∃ e2, collection_complete_log (base s) = .ok e2)
    (st : ProjectState) (n1 n2 : Nat) :
    ∃ st1 st2,
      (collect_data env st n1 true).2 =
        .ok (first_collected base st.config n1, st1) ∧
      (collect_data env st n2 true).2 =
        .ok (first_collected base st.config n2, st2) ∧
      (first_collected base st.config n1).collected_at = n1 ∧
      (first_collected base st.config n2).collected_at = n2 ∧
      first_collected base st.config n1 =
        { first_collected base st.config n2 with collected_at := n1 } := by
  refine ⟨_, _, collect_data_force_stamped env base H Hlog st n1,
    collect_data_force_stamped env base H Hlog st n2, ?_, ?_, ?_⟩ <;>
  · cases henabled : get_enabled_sources st.config <;>
      simp [first_collected, henabled, synthesize_project_data]

/-- Source of the C9 fixtures. -/
def srcC9 : SourceConfig := { type := "local_files", name := some "Docs" }

/-- Base data of the C9 stamped environment; it carries the `commits=`,
`issues=` and `pull_requests=` keyword extras the way
`LocalFilesConnector.collect` constructs its `ProjectData`, so the
completion log of line 151 can be formatted. -/
def pdC9base : ProjectData :=
  { repository := repo0, collected_at := 0, source_type := .local_files,
    extra := [("commits", .pylist []), ("issues", .pylist []),
              ("pull_requests", .pylist [])] }

/-- Environment whose collects always succeed and stamp `collected_at`
with the current time. -/
def envC9 : CollectEnv :=
  ⟨fun _ now => .ok { pdC9base with collected_at := now }⟩

/-- Configuration of the C9 fixtures: one enabled source. -/
def cfgC9 : Wara9aConfig :=
  { project := { name := "demo" }, sources := [srcC9], templates := [] }

/-- The data cached after the first C9 call, stamped at time 1. -/
def pdC9 : ProjectData := { pdC9base with collected_at := 1 }

/-- Project state after the first C9 call. -/
def stC9 : ProjectState := { config := cfgC9, project_data := some pdC9 }

/-- Witness for the amended C9 on the stamped environment. -/
theorem C9_witness :
    ∃ st1 st2,
      (collect_data envC9 { config := cfgC9 } 1 true).2 =
        .ok (first_collected (fun _ => pdC9base) cfgC9 1, st1) ∧
      (collect_data envC9 { config := cfgC9 } 2 true).2 =
        .ok (first_collected (fun _ => pdC9base) cfgC9 2, st2) ∧
      (first_collected (fun _ => pdC9base) cfgC9 1).collected_at = 1 ∧
      (first_collected (fun _ => pdC9base) cfgC9 2).collected_at = 2 ∧
      first_collected (fun _ => pdC9base) cfgC9 1 =
        { first_collected (fun _ => pdC9base) cfgC9 2 with collected_at := 1 } :=
  C9_fresh_only_with_force_refresh envC9 (fun _ => pdC9base) (fun _ _ => rfl)
    (fun _ => ⟨⟨.info, "Collection complete: 0 commits, 0 issues, 0 PRs"⟩, rfl⟩)
    { config := cfgC9 } 1 2

/-- Counterexample to C9 as stated: the second default invocation does
not perform a fresh collection.  The first call at time 1 genuinely
completes (the data carries the extras line 151 reads) and caches data
stamped `collected_at = 1`; the second call at time 2 with the default
`force_refresh=False` logs `Utilisation des données en cache` and
returns the cached value unchanged — equal in every field including
`collected_at` — although the connector, if invoked, would have
delivered data stamped `collected_at = 2`. -/
theorem C9_counterexample :
    (collect_data envC9 { config := cfgC9 } 1 false).2 = .ok (pdC9, stC9) ∧
    collect_data envC9 stC9 2 false =
      ([⟨.info, "Début de la collecte de données"⟩,
        ⟨.info, "Utilisation des données en cache"⟩], .ok (pdC9, stC9)) ∧
    pdC9.collected_at = 1 ∧
    envC9.collect srcC9 2 = .ok { pdC9base with collected_at := 2 } :=
  ⟨rfl, rfl, rfl, rfl⟩

/-! ## C6 -/

/-- Collected project data for the C6 evaluation. -/
def pdCtx : ProjectData :=
  { repository := repo0, releases := [relA],
    collected_at := 5, source_type := .github }

/-- Enabled template of the C6 evaluation. -/
def tcC6 : TemplateConfig := { name := "readme", output := ("README_generated", ".md") }

/-- Configuration of the C6 evaluation. -/
def cfgC6 : Wara9aConfig :=
  { project := { name := "demo" }, sources := [], templates := [tcC6] }

/-- C6 (code bug, evaluated at the failing input): with collected data
present, building the template context never succeeds — the helper
update calls `self._project_data.get_open_issues()`, a method
`ProjectData` does not define, so the build raises `AttributeError`
instead of yielding a mapping with `latest_release`, `open_issues` and
`recent_commits`. -/
theorem C6_context_build_raises :
    prepare_template_context cfgC6 (some pdCtx) tcC6 =
      .error (.attributeError projectDataNoGetOpenIssues) := by rfl

/-! ## C7 -/

/-- C7 (amended): in the context dict literal, each custom variable of
the template maps to its declared value, overriding the same-named
`project`, `data`, `config` and `template` entries contributed before
it; the derived-helper update that would run afterwards raises
`AttributeError`, so the full context is never returned. -/
theorem C7_custom_variables_override_literal (cfg : Wara9aConfig)
    (pd : Option ProjectData) (tc : TemplateConfig)
    (hnodup : (tc.«variables».map Prod.fst).Nodup)
    (k : String) (v : PyVal) (hmem : (k, v) ∈ tc.«variables») :
    List.lookup k (prepare_context_literal cfg pd tc) = some (.py v) := by
  unfold prepare_context_literal
  exact lookup_foldl_dset tc.«variables» k v hnodup hmem _

/-- Template carrying a custom variable named like the built-in
`project` context key. -/
def tcC7 : TemplateConfig :=
  { name := "guide", output := ("guide", ".md"),
    «variables» := [("project", .pystr "overridden title")] }

/-- Configuration of the C7 fixtures. -/
def cfgC7 : Wara9aConfig :=
  { project := { name := "demo" }, sources := [], templates := [tcC7] }

/-- Witness for the amended C7: the custom variable `project` overrides
the dumped project metadata in the dict literal. -/
theorem C7_witness :
    List.lookup "project" (prepare_context_literal cfgC7 none tcC7) =
      some (.py (.pystr "overridden title")) :=
  C7_custom_variables_override_literal cfgC7 none tcC7 (by simp [tcC7]) "project"
    (.pystr "overridden title") (by simp [tcC7])

/-- Collected data for the C7 counterexample. -/
def pdC7 : ProjectData :=
  { repository := repo0, collected_at := 6, source_type := .local_files }

/-- Counterexample to C7 as stated: once the derived helpers are added
(the code path taken whenever data has been collected) no context
mapping is produced at all — the build raises `AttributeError` — so the
claim that the built mapping carries the custom variables cannot
hold. -/
theorem C7_counterexample :
    prepare_template_context cfgC7 (some pdC7) tcC7 =
      .error (.attributeError projectDataNoGetOpenIssues) := by rfl

/-! ## C4 -/

/-- A template engine whose renders always succeed (the run never
reaches it). -/
def engine0 : TemplateEngine := ⟨fun _ _ _ => .ok "rendered"⟩

/-- Enabled template of the C4 evaluation, declared output
`README_generated.md`. -/
def tcC4 : TemplateConfig := { name := "readme", output := ("README_generated", ".md") }

/-- Configuration of the C4 evaluation: one enabled template, two
enabled output formats whose generators are registered. -/
def cfgC4 : Wara9aConfig :=
  { project := { name := "demo" }, sources := [], templates := [tcC4],
    output := { directory := "out", formats := [.markdown, .html] } }

/-- Collected data of the C4 evaluation. -/
def pdC4 : ProjectData :=
  { repository := repo0, collected_at := 2, source_type := .github }

/-- C4 (code bug, evaluated at the failing input): for an enabled
template with the two registered formats, generation produces no files
and renders nothing — context building raises `AttributeError`
(`get_open_issues` is undefined) before the render call, and the
per-template handler then raises `AttributeError` on
`self.config.get`, aborting the run. -/
theorem C4_generation_aborts :
    generate_documents engine0 cfgC4 pdC4 none none =
      ([⟨.info, "Génération de documents"⟩,
        ⟨.error, "Erreur lors de la génération du template readme"⟩],
       .error (.attributeError wara9aConfigNoGet)) := by rfl

/-! ## C8 -/

/-- C8 (amended): in the per-format fan-out loop, a format with no
registered generator raises nothing — it contributes one error log line
(`Générateur non trouvé pour le format`) and is skipped, while every
format with a registered generator still yields exactly one file named
by the template's base name and that generator's canonical extension,
in declared format order.  (In the current code the loop itself is only
reachable if context building and rendering succeed.) -/
theorem C8_missing_generator_skipped (out_dir : String)
    (tpl_output : String × String) (content : String)
    (fmts : List OutputFormat) :
    (generate_formats out_dir tpl_output content fmts).1 =
      fmts.filterMap (fun f => (generators_get f).map
        (fun g => (⟨out_dir, tpl_output.1, g.file_extension⟩ : PPath))) ∧
    (generate_formats out_dir tpl_output content fmts).2 =
      fmts.map (fun f =>
        match generators_get f with
        | some _ => (⟨.info, "Document généré"⟩ : LogEntry)
        | none => ⟨.error, "Générateur non trouvé pour le format: " ++ f.value⟩) := by
  induction fmts with
  | nil => exact ⟨rfl, rfl⟩
  | cons f rest ih =>
    rw [generate_formats]
    cases f <;>
      simp [generators_get, generator_generate, prepare_output_path_eq,
        with_suffix, OutputFormat.value, ih.1, ih.2]

/-- Enabled template of the C8 counterexample. -/
def tcC8 : TemplateConfig := { name := "notes", output := ("notes", ".md") }

/-- Configuration of the C8 counterexample: the enabled formats include
`pdf`, which has no registered generator. -/
def cfgC8 : Wara9aConfig :=
  { project := { name := "demo" }, sources := [], templates := [tcC8],
    output := { directory := "out", formats := [.pdf, .markdown] } }

/-- Collected data of the C8 counterexample. -/
def pdC8 : ProjectData :=
  { repository := repo0, collected_at := 2, source_type := .github }

/-- Counterexample to C8 as stated: on a run whose formats include the
generator-less `pdf`, generation does not return the successfully
generated paths of the remaining formats — it aborts with
`AttributeError` before any dispatch, and no `GeneratorNotFound` error
or warning is involved. -/
theorem C8_counterexample :
    generate_documents engine0 cfgC8 pdC8 none none =
      ([⟨.info, "Génération de documents"⟩,
        ⟨.error, "Erreur lors de la génération du template notes"⟩],
       .error (.attributeError wara9aConfigNoGet)) := by rfl
